import Mathlib

/-!
Shallow embedding of the dydx v3 client (`src/modules/private.ts`: the `Private`
module and the `DydxClient` facade) and theorems settling the frozen claims.

Impure inputs of the TypeScript code become explicit parameters:
the `new Date().toISOString()` timestamp, the string representation of the
`Math.random()` draw, and the external collaborators (the starkex signing
primitives and JSON serialization) become function arguments.
JS string truthiness (`''` is falsy) is modelled explicitly wherever the source
relies on it (`params.clientId || ...`, `if (!signature)`, `if (this.apiPrivateKey)`).
-/

namespace V3Client

/-- HTTP method enumeration of the axios wrapper (`RequestMethod` in src/lib/axios). -/
inductive RequestMethod where
  | GET
  | POST
  | PUT
  | DELETE
deriving DecidableEq, Repr

/-- Method enumeration of the external starkex signing library (`ApiMethod`). -/
inductive ApiMethod where
  | GET
  | POST
  | PUT
  | DELETE
deriving DecidableEq, Repr

/-- Embedding of `METHOD_ENUM_MAP`, the record mapping `RequestMethod` to `ApiMethod`. -/
def METHOD_ENUM_MAP : RequestMethod → ApiMethod
  | .GET => .GET
  | .POST => .POST
  | .PUT => .PUT
  | .DELETE => .DELETE

/-- A key pair as held by the client (`KeyPair` of the starkex library): a public
key identifier and a private key. -/
structure KeyPair where
  publicKey : String
  privateKey : String
deriving DecidableEq, Repr

/-- State of the `Private` module (class `Private`): host plus the two key pairs.
The constructor derives `apiKeyPair` from the supplied private key via the external
`asSimpleKeyPair(asEcKeyPair(...))` (abstracted: the client is modelled as holding
the derived pair) and sets `starkKeyPair` only when a stark private key was supplied.
`Private` is a Lean keyword, hence the name `PrivateClient`. -/
structure PrivateClient where
  host : String
  apiKeyPair : KeyPair
  starkKeyPair : Option KeyPair
deriving DecidableEq, Repr

/-- The canonical request envelope handed to the external `ApiRequest.fromInternal`
inside `Private.sign`: body, requestPath, method, publicKey, expiresAt. -/
structure ApiRequestEnvelope where
  body : String
  requestPath : String
  method : ApiMethod
  publicKey : String
  expiresAt : String
deriving DecidableEq, Repr

/-- The envelope constructed by `Private.sign`: the body is the JSON serialization
of `data` when present and the empty string otherwise (`data ? JSON.stringify(data) : ''`;
a JS object is always truthy, so presence alone decides the branch). `stringify`
abstracts the external `JSON.stringify`. -/
def signEnvelope {α : Type} (c : PrivateClient) (stringify : α → String)
    (requestPath : String) (method : RequestMethod) (timestamp : String)
    (data : Option α) : ApiRequestEnvelope :=
  { body :=
      match data with
      | some d => stringify d
      | none => ""
    requestPath := requestPath
    method := METHOD_ENUM_MAP method
    publicKey := c.apiKeyPair.publicKey
    expiresAt := timestamp }

/-- Embedding of `Private.sign`: the external signing chain
`ApiRequest.fromInternal(envelope).sign(privateKey)` is abstracted as the function
argument `signer` applied to the envelope and the API private key. -/
def PrivateClient.sign {α : Type} (c : PrivateClient)
    (signer : ApiRequestEnvelope → String → String) (stringify : α → String)
    (requestPath : String) (method : RequestMethod) (timestamp : String)
    (data : Option α) : String :=
  signer (signEnvelope c stringify requestPath method timestamp data) c.apiKeyPair.privateKey

/-- The argument object handed to the external HTTP collaborator `axiosRequest`
by `Private.request`: url, method, data, headers. -/
structure DispatchedRequest (α : Type) where
  url : String
  method : RequestMethod
  data : Option α
  headers : List (String × String)
deriving DecidableEq, Repr

/-- Embedding of `Private.request`: prefixes the endpoint with the fixed `/v3/`
segment, signs the request, and attaches the three authentication headers. The
impure timestamp (`new Date().toISOString()`) is a parameter. -/
def PrivateClient.request {α : Type} (c : PrivateClient)
    (signer : ApiRequestEnvelope → String → String) (stringify : α → String)
    (timestamp : String) (method : RequestMethod) (endpoint : String)
    (data : Option α) : DispatchedRequest α :=
  let requestPath := "/v3/" ++ endpoint
  { url := c.host ++ requestPath
    method := method
    data := data
    headers :=
      [("DYDX-SIGNATURE", c.sign signer stringify requestPath method timestamp data),
       ("DYDX-API-KEY", c.apiKeyPair.publicKey),
       ("DYDX-TIMESTAMP", timestamp)] }

/-- Modelled from the spec: the query-path generation collaborator
`generateQueryPath` (src/helpers/request-helpers, not under src/). Per the spec,
an empty parameter set yields the bare endpoint with no trailing query separator,
and a non-empty set appends a query string carrying all parameters. -/
def generateQueryPath (endpoint : String) (params : List (String × String)) : String :=
  if params.isEmpty then endpoint
  else endpoint ++ "?" ++ String.intercalate "&" (params.map (fun kv => kv.1 ++ "=" ++ kv.2))

/-- Embedding of `Private.get`: a GET through `request`, the endpoint replaced by
the query path; no body is passed. -/
def PrivateClient.get {α : Type} (c : PrivateClient)
    (signer : ApiRequestEnvelope → String → String) (stringify : α → String)
    (timestamp : String) (endpoint : String) (params : List (String × String)) :
    DispatchedRequest α :=
  c.request signer stringify timestamp RequestMethod.GET (generateQueryPath endpoint params) none

/-- Embedding of `Private.post`: a POST through `request` with a body. -/
def PrivateClient.post {α : Type} (c : PrivateClient)
    (signer : ApiRequestEnvelope → String → String) (stringify : α → String)
    (timestamp : String) (endpoint : String) (data : α) : DispatchedRequest α :=
  c.request signer stringify timestamp RequestMethod.POST endpoint (some data)

/-- Embedding of `Private.put`: a PUT through `request` with a body. -/
def PrivateClient.put {α : Type} (c : PrivateClient)
    (signer : ApiRequestEnvelope → String → String) (stringify : α → String)
    (timestamp : String) (endpoint : String) (data : α) : DispatchedRequest α :=
  c.request signer stringify timestamp RequestMethod.PUT endpoint (some data)

/-- Embedding of `Private.delete`: a DELETE through `request`, the endpoint
replaced by the query path; no body is passed. -/
def PrivateClient.delete {α : Type} (c : PrivateClient)
    (signer : ApiRequestEnvelope → String → String) (stringify : α → String)
    (timestamp : String) (endpoint : String) (params : List (String × String)) :
    DispatchedRequest α :=
  c.request signer stringify timestamp RequestMethod.DELETE (generateQueryPath endpoint params) none

/-- Embedding of the generated client id
`Math.random().toString().slice(2).replace(/^0+/, '')` as a function of the
random draw's JS string representation `r`: drop the first two characters
(`slice(2)`), then strip leading `'0'` characters (`replace(/^0+/, '')`). -/
def genClientId (r : String) : String :=
  String.mk ((r.toList.drop 2).dropWhile (· == '0'))

/-- The client id actually used: `params.clientId || <generated>` with JS string
truthiness, so a supplied empty string triggers generation. -/
def resolveClientId (supplied : Option String) (r : String) : String :=
  match supplied with
  | some cid => if cid = "" then genClientId r else cid
  | none => genClientId r

/-- The `if (!signature)` test on `params.signature` with JS string truthiness:
a supplied signature counts only when non-empty. -/
def providedSignature (supplied : Option String) : Option String :=
  match supplied with
  | some s => if s = "" then none else some s
  | none => none

/-- Modelled from the spec: caller parameters of `createOrder`
(`PartialBy<ApiOrder, 'clientId' | 'signature'>`; the `ApiOrder` field list lives
in src/types, not under src/, and is taken from the spec's data model: market,
side, type, size, price, expiration, plus the optional clientId and signature). -/
structure OrderParams where
  market : String
  side : String
  type : String
  size : String
  price : String
  expiration : String
  clientId : Option String
  signature : Option String
deriving DecidableEq, Repr

/-- The `orderToSign` object handed to the external signing chain
`StarkExOrder.fromInternal(orderToSign).sign(starkKeyPair)`:
`{ ...params, clientId, positionId, starkKey: starkKeyPair.publicKey,
expiresAt: params.expiration }`. In the local-signing branch `params.signature`
is absent or the empty string; the empty-string case would additionally leave an
empty `signature` key on the spread object, which this structure does not model. -/
structure OrderToSign where
  market : String
  side : String
  type : String
  size : String
  price : String
  expiration : String
  clientId : String
  positionId : String
  starkKey : String
  expiresAt : String
deriving DecidableEq, Repr

/-- Key list of the `orderToSign` object literal, in construction order, for a
caller that omitted `clientId` and `signature`. -/
def OrderToSign.keysList : List String :=
  ["market", "side", "type", "size", "price", "expiration",
   "clientId", "positionId", "starkKey", "expiresAt"]

/-- The posted order payload `{ ...params, clientId, signature }` (`ApiOrder`
with both optional fields finalized). -/
structure ApiOrder where
  market : String
  side : String
  type : String
  size : String
  price : String
  expiration : String
  clientId : String
  signature : String
deriving DecidableEq, Repr

/-- Outcome of a successful `createOrder`, up to the dispatch boundary:
`signedValue` is the value handed to the external signing primitive (`none` when
a caller-supplied signature was used and the primitive was never invoked), and
`(endpoint, order)` is the pair handed to `this.post`. An `Except.error` result
models the synchronous `throw`, reached before any dispatcher invocation. -/
structure CreateOrderOutcome where
  signedValue : Option OrderToSign
  endpoint : String
  order : ApiOrder
deriving DecidableEq, Repr

/-- Embedding of `Private.createOrder`. `starkSign` abstracts the external
`StarkExOrder.fromInternal(...).sign(...)` chain and `rand` is the string
representation of the `Math.random()` draw. -/
def PrivateClient.createOrder (c : PrivateClient)
    (starkSign : OrderToSign → KeyPair → String) (params : OrderParams)
    (positionId : String) (rand : String) : Except String CreateOrderOutcome :=
  let clientId := resolveClientId params.clientId rand
  match providedSignature params.signature with
  | some s =>
    Except.ok
      { signedValue := none
        endpoint := "orders"
        order :=
          { market := params.market, side := params.side, type := params.type,
            size := params.size, price := params.price,
            expiration := params.expiration, clientId := clientId, signature := s } }
  | none =>
    match c.starkKeyPair with
    | none => Except.error "Order is not signed and client was not initialized with starkPrivateKey"
    | some kp =>
      let orderToSign : OrderToSign :=
        { market := params.market, side := params.side, type := params.type,
          size := params.size, price := params.price, expiration := params.expiration,
          clientId := clientId, positionId := positionId,
          starkKey := kp.publicKey, expiresAt := params.expiration }
      let signature := starkSign orderToSign kp
      Except.ok
        { signedValue := some orderToSign
          endpoint := "orders"
          order :=
            { market := params.market, side := params.side, type := params.type,
              size := params.size, price := params.price,
              expiration := params.expiration, clientId := clientId,
              signature := signature } }

/-- Modelled from the spec: caller parameters of `createWithdrawal`
(`PartialBy<ApiWithdrawal, 'clientId' | 'signature'>`; the `ApiWithdrawal` field
list lives in src/types, not under src/, and is taken from the spec's data model:
amount, asset, expiration, plus the optional clientId and signature). -/
structure WithdrawalParams where
  amount : String
  asset : String
  expiration : String
  clientId : Option String
  signature : Option String
deriving DecidableEq, Repr

/-- The `withdrawalToSign` object handed to the external signing chain
`StarkExWithdrawal.fromInternal(withdrawalToSign).sign(starkKeyPair)`:
`{ ...params, clientId, starkKey: starkKeyPair.publicKey, debitAmount: params.amount,
expiresAt: params.expiration, positionId }`. As for orders, an empty-string
`params.signature` key left by the spread is not modelled. -/
structure WithdrawalToSign where
  amount : String
  asset : String
  expiration : String
  clientId : String
  starkKey : String
  debitAmount : String
  expiresAt : String
  positionId : String
deriving DecidableEq, Repr

/-- Key list of the `withdrawalToSign` object literal, in construction order, for
a caller that omitted `clientId` and `signature`. -/
def WithdrawalToSign.keysList : List String :=
  ["amount", "asset", "expiration", "clientId", "starkKey",
   "debitAmount", "expiresAt", "positionId"]

/-- The posted withdrawal payload `{ ...params, clientId, signature }`
(`ApiWithdrawal` with both optional fields finalized). -/
structure ApiWithdrawal where
  amount : String
  asset : String
  expiration : String
  clientId : String
  signature : String
deriving DecidableEq, Repr

/-- Outcome of a successful `createWithdrawal`, up to the dispatch boundary;
fields as in `CreateOrderOutcome`. -/
structure CreateWithdrawalOutcome where
  signedValue : Option WithdrawalToSign
  endpoint : String
  withdrawal : ApiWithdrawal
deriving DecidableEq, Repr

/-- Embedding of `Private.createWithdrawal`; parameters as in `createOrder`. -/
def PrivateClient.createWithdrawal (c : PrivateClient)
    (starkSign : WithdrawalToSign → KeyPair → String) (params : WithdrawalParams)
    (positionId : String) (rand : String) : Except String CreateWithdrawalOutcome :=
  let clientId := resolveClientId params.clientId rand
  match providedSignature params.signature with
  | some s =>
    Except.ok
      { signedValue := none
        endpoint := "withdrawals"
        withdrawal :=
          { amount := params.amount, asset := params.asset,
            expiration := params.expiration, clientId := clientId, signature := s } }
  | none =>
    match c.starkKeyPair with
    | none =>
      Except.error "Withdrawal is not signed and client was not initialized with starkPrivateKey"
    | some kp =>
      let withdrawalToSign : WithdrawalToSign :=
        { amount := params.amount, asset := params.asset, expiration := params.expiration,
          clientId := clientId, starkKey := kp.publicKey, debitAmount := params.amount,
          expiresAt := params.expiration, positionId := positionId }
      let signature := starkSign withdrawalToSign kp
      Except.ok
        { signedValue := some withdrawalToSign
          endpoint := "withdrawals"
          withdrawal :=
            { amount := params.amount, asset := params.asset,
              expiration := params.expiration, clientId := clientId,
              signature := signature } }

/-- Caller field names of an order whose `clientId` and `signature` were omitted. -/
def orderCallerKeys : List String :=
  ["market", "side", "type", "size", "price", "expiration"]

/-- Caller field names of a withdrawal whose `clientId` and `signature` were omitted. -/
def withdrawalCallerKeys : List String :=
  ["amount", "asset", "expiration"]

/-- The field inventory a signable value is claimed to carry: exactly the caller's
fields plus the injected `clientId`, `positionId`, stark public key, and the
expiration field mapped from the caller's `expiration` (`expiresAt`). -/
def claimedSignableKeys (callerKeys : List String) : List String :=
  callerKeys ++ ["clientId", "positionId", "starkKey", "expiresAt"]

/-- A constructed `Web3` instance: `new Web3(options.web3Provider as any)` accepts
an absent provider and still yields an object (every object is truthy in JS). -/
structure Web3Obj where
  provider : Option String
deriving DecidableEq, Repr

/-- Embedding of `ClientOptions`; the provider and key material are modelled by
their presence and string value. -/
structure ClientOptions where
  apiTimeout : Option Nat
  apiPrivateKey : Option String
  starkPrivateKey : Option String
  web3Provider : Option String
deriving DecidableEq, Repr

/-- The real private module as memoized by the facade
(`new Private(host, apiPrivateKey, starkPrivateKey)`). -/
structure RealPrivate where
  host : String
  apiPrivateKey : String
  starkPrivateKey : Option String
deriving DecidableEq, Repr

/-- The real keys module as memoized by the facade (`new Keys(host, web3)`). -/
structure RealKeys where
  host : String
  web3 : Web3Obj
deriving DecidableEq, Repr

/-- The real onboarding module as memoized by the facade (`new Onboarding(host, web3)`). -/
structure RealOnboarding where
  host : String
  web3 : Web3Obj
deriving DecidableEq, Repr

/-- The real eth module as memoized by the facade (`new Eth(web3)`). -/
structure RealEth where
  web3 : Web3Obj
deriving DecidableEq, Repr

/-- What a module getter hands back: the constructed module, or the
`...NotSupported` stub object. -/
inductive ModuleHandle (μ : Type) where
  | real (m : μ)
  | notSupportedStub
deriving DecidableEq, Repr

/-- Modelled from the spec: invoking an operation `op` on a module handle. The
stub modules (`privateNotSupported`, `keysNotSupported`, `onboardingNotSupported`,
`ethNotSupported`; their defining files are not under src/) expose the module's
operations, every one failing immediately with a descriptive "not supported"
error; a real module runs its implementation. -/
def ModuleHandle.invoke {μ α : Type} (h : ModuleHandle μ) (op : String)
    (impl : μ → String → Except String α) : Except String α :=
  match h with
  | .real m => impl m op
  | .notSupportedStub => Except.error (op ++ " is not supported")

/-- State of the `DydxClient` facade: the immutable construction options and the
four lazily memoized module fields (`_private`, `_keys`, `_onboarding`, `_eth`). -/
structure DydxClient where
  host : String
  apiTimeout : Option Nat
  apiPrivateKey : Option String
  starkPrivateKey : Option String
  web3 : Option Web3Obj
  privateMemo : Option RealPrivate
  keysMemo : Option RealKeys
  onboardingMemo : Option RealOnboarding
  ethMemo : Option RealEth
deriving DecidableEq, Repr

/-- Embedding of the `DydxClient` constructor. Note that `web3` is assigned
unconditionally: `this.web3 = new Web3(options.web3Provider as any)` constructs
an instance even when no provider was supplied. -/
def DydxClient.create (host : String) (options : ClientOptions) : DydxClient :=
  { host := host
    apiTimeout := options.apiTimeout
    apiPrivateKey := options.apiPrivateKey
    starkPrivateKey := options.starkPrivateKey
    web3 := some { provider := options.web3Provider }
    privateMemo := none
    keysMemo := none
    onboardingMemo := none
    ethMemo := none }

/-- Embedding of the `private` getter: memoized construction gated on
`if (this.apiPrivateKey)` (JS truthiness: an empty-string key is falsy), with the
stub returned, and the memo left unset, when the credential is missing. -/
def DydxClient.getPrivate (c : DydxClient) : ModuleHandle RealPrivate × DydxClient :=
  match c.privateMemo with
  | some m => (.real m, c)
  | none =>
    match c.apiPrivateKey with
    | some k =>
      if k = "" then (.notSupportedStub, c)
      else
        let m : RealPrivate :=
          { host := c.host, apiPrivateKey := k, starkPrivateKey := c.starkPrivateKey }
        (.real m, { c with privateMemo := some m })
    | none => (.notSupportedStub, c)

/-- Embedding of the `keys` getter: memoized construction gated on `if (this.web3)`. -/
def DydxClient.getKeys (c : DydxClient) : ModuleHandle RealKeys × DydxClient :=
  match c.keysMemo with
  | some m => (.real m, c)
  | none =>
    match c.web3 with
    | some w =>
      let m : RealKeys := { host := c.host, web3 := w }
      (.real m, { c with keysMemo := some m })
    | none => (.notSupportedStub, c)

/-- Embedding of the `onboarding` getter: memoized construction gated on `if (this.web3)`. -/
def DydxClient.getOnboarding (c : DydxClient) : ModuleHandle RealOnboarding × DydxClient :=
  match c.onboardingMemo with
  | some m => (.real m, c)
  | none =>
    match c.web3 with
    | some w =>
      let m : RealOnboarding := { host := c.host, web3 := w }
      (.real m, { c with onboardingMemo := some m })
    | none => (.notSupportedStub, c)

/-- Embedding of the `eth` getter: memoized construction gated on `if (this.web3)`. -/
def DydxClient.getEth (c : DydxClient) : ModuleHandle RealEth × DydxClient :=
  match c.ethMemo with
  | some m => (.real m, c)
  | none =>
    match c.web3 with
    | some w =>
      let m : RealEth := { web3 := w }
      (.real m, { c with ethMemo := some m })
    | none => (.notSupportedStub, c)

/-- One observable access to a gated module of the facade. -/
inductive Accessor where
  | priv
  | keys
  | onboarding
  | eth
deriving DecidableEq, Repr

/-- The state left behind by one getter access. -/
def DydxClient.access (c : DydxClient) (a : Accessor) : DydxClient :=
  match a with
  | .priv => (c.getPrivate).2
  | .keys => (c.getKeys).2
  | .onboarding => (c.getOnboarding).2
  | .eth => (c.getEth).2

/-- The state after a sequence of getter accesses. -/
def DydxClient.run (c : DydxClient) (l : List Accessor) : DydxClient :=
  l.foldl DydxClient.access c

/-- Concrete fixtures used by witnesses and counterexamples. -/
def sampleApiKeyPair : KeyPair :=
  { publicKey := "apub", privateKey := "apriv" }

/-- Concrete stark key pair fixture. -/
def sampleStarkKeyPair : KeyPair :=
  { publicKey := "spub", privateKey := "spriv" }

/-- A private client constructed without a stark private key. -/
def sampleClientNoStark : PrivateClient :=
  { host := "https://example.com", apiKeyPair := sampleApiKeyPair, starkKeyPair := none }

/-- A private client constructed with a stark private key. -/
def sampleClientWithStark : PrivateClient :=
  { host := "https://example.com", apiKeyPair := sampleApiKeyPair,
    starkKeyPair := some sampleStarkKeyPair }

/-- Concrete order parameters with the given optional clientId and signature. -/
def sampleOrderParams (cid sig : Option String) : OrderParams :=
  { market := "BTC-USD", side := "BUY", type := "LIMIT", size := "1", price := "100",
    expiration := "2022-01-01T00:00:00.000Z", clientId := cid, signature := sig }

/-- Concrete withdrawal parameters with the given optional clientId and signature. -/
def sampleWithdrawalParams (cid sig : Option String) : WithdrawalParams :=
  { amount := "100", asset := "USDC", expiration := "2022-01-01T00:00:00.000Z",
    clientId := cid, signature := sig }

lemma all_isDigit_dropWhile_zero (l : List Char) (h : l.all Char.isDigit = true) :
    ((l.dropWhile (· == '0')).all Char.isDigit) = true := by
  induction l with
  | nil => simp
  | cons x xs ih =>
    simp only [List.all_cons, Bool.and_eq_true] at h
    by_cases hx : (x == '0') = true
    · simpa [List.dropWhile_cons, hx] using ih h.2
    · simp [List.dropWhile_cons, hx, h.1, h.2]

lemma dropWhile_zero_ne_nil (l : List Char) (h : l.any (· != '0') = true) :
    l.dropWhile (· == '0') ≠ [] := by
  induction l with
  | nil => simp at h
  | cons x xs ih =>
    by_cases hx : (x == '0') = true
    · have hx' : (x != '0') = false := by simp [bne]; simpa using hx
      simp only [List.any_cons, hx', Bool.false_or] at h
      simpa [List.dropWhile_cons, hx] using ih h
    · simp [List.dropWhile_cons, hx]

lemma head_dropWhile_zero_ne_zero (l : List Char) :
    (l.dropWhile (· == '0')).head? ≠ some '0' := by
  induction l with
  | nil => simp
  | cons x xs ih =>
    by_cases hx : (x == '0') = true
    · simpa [List.dropWhile_cons, hx] using ih
    · have hdw : (x :: xs).dropWhile (· == '0') = x :: xs := by
        simp [List.dropWhile_cons, hx]
      rw [hdw]
      simp only [List.head?_cons, ne_eq, Option.some.injEq]
      intro hcontra
      exact hx (by simp [hcontra])

lemma genClientId_numeral (r : String)
    (hdig : (r.toList.drop 2).all Char.isDigit = true)
    (hnz : (r.toList.drop 2).any (· != '0') = true) :
    genClientId r ≠ "" ∧ (genClientId r).toList.all Char.isDigit = true ∧
    (genClientId r).toList.head? ≠ some '0' := by
  refine ⟨?_, ?_, ?_⟩
  · intro h
    apply dropWhile_zero_ne_nil (r.toList.drop 2) hnz
    have := congrArg String.toList h
    simpa [genClientId] using this
  · simpa [genClientId] using all_isDigit_dropWhile_zero (r.toList.drop 2) hdig
  · simpa [genClientId] using head_dropWhile_zero_ne_zero (r.toList.drop 2)

lemma access_preserves (c : DydxClient) (a : Accessor) :
    (c.access a).apiPrivateKey = c.apiPrivateKey ∧
    (c.access a).web3 = c.web3 ∧
    (c.apiPrivateKey = none → (c.access a).privateMemo = c.privateMemo) := by
  cases a
  case priv =>
    rcases hm : c.privateMemo with _ | m
    · rcases hk : c.apiPrivateKey with _ | k
      · simp [DydxClient.access, DydxClient.getPrivate, hm, hk]
      · by_cases hke : k = ""
        · simp [DydxClient.access, DydxClient.getPrivate, hm, hk, hke]
        · refine ⟨?_, ?_, fun habs => ?_⟩
          · simp [DydxClient.access, DydxClient.getPrivate, hm, hk, hke]
          · simp [DydxClient.access, DydxClient.getPrivate, hm, hk, hke]
          · cases habs
    · simp [DydxClient.access, DydxClient.getPrivate, hm]
  case keys =>
    rcases hm : c.keysMemo with _ | m
    · rcases hw : c.web3 with _ | w
      · simp [DydxClient.access, DydxClient.getKeys, hm, hw]
      · simp [DydxClient.access, DydxClient.getKeys, hm, hw]
    · simp [DydxClient.access, DydxClient.getKeys, hm]
  case onboarding =>
    rcases hm : c.onboardingMemo with _ | m
    · rcases hw : c.web3 with _ | w
      · simp [DydxClient.access, DydxClient.getOnboarding, hm, hw]
      · simp [DydxClient.access, DydxClient.getOnboarding, hm, hw]
    · simp [DydxClient.access, DydxClient.getOnboarding, hm]
  case eth =>
    rcases hm : c.ethMemo with _ | m
    · rcases hw : c.web3 with _ | w
      · simp [DydxClient.access, DydxClient.getEth, hm, hw]
      · simp [DydxClient.access, DydxClient.getEth, hm, hw]
    · simp [DydxClient.access, DydxClient.getEth, hm]

lemma run_preserves (l : List Accessor) :
    ∀ c : DydxClient, c.apiPrivateKey = none →
      (c.run l).apiPrivateKey = none ∧ (c.run l).web3 = c.web3 ∧
      (c.run l).privateMemo = c.privateMemo := by
  induction l with
  | nil => exact fun c h => ⟨h, rfl, rfl⟩
  | cons a t ih =>
    intro c h
    have hp := access_preserves c a
    have h1 : (c.access a).apiPrivateKey = none := hp.1.trans h
    have ht := ih (c.access a) h1
    have hrun : c.run (a :: t) = (c.access a).run t := rfl
    rw [hrun]
    exact ⟨ht.1, ht.2.1.trans hp.2.1, ht.2.2.trans (hp.2.2 h)⟩

lemma getPrivate_stub_of_none (c : DydxClient) (hm : c.privateMemo = none)
    (hk : c.apiPrivateKey = none) :
    c.getPrivate.1 = ModuleHandle.notSupportedStub := by
  simp [DydxClient.getPrivate, hm, hk]

lemma getKeys_real_of_web3 (c : DydxClient) (w : Web3Obj) (hw : c.web3 = some w) :
    ∃ m, c.getKeys.1 = ModuleHandle.real m := by
  rcases hm : c.keysMemo with _ | m
  · exact ⟨{ host := c.host, web3 := w }, by simp [DydxClient.getKeys, hm, hw]⟩
  · exact ⟨m, by simp [DydxClient.getKeys, hm]⟩

lemma getOnboarding_real_of_web3 (c : DydxClient) (w : Web3Obj) (hw : c.web3 = some w) :
    ∃ m, c.getOnboarding.1 = ModuleHandle.real m := by
  rcases hm : c.onboardingMemo with _ | m
  · exact ⟨{ host := c.host, web3 := w }, by simp [DydxClient.getOnboarding, hm, hw]⟩
  · exact ⟨m, by simp [DydxClient.getOnboarding, hm]⟩

lemma getEth_real_of_web3 (c : DydxClient) (w : Web3Obj) (hw : c.web3 = some w) :
    ∃ m, c.getEth.1 = ModuleHandle.real m := by
  rcases hm : c.ethMemo with _ | m
  · exact ⟨{ web3 := w }, by simp [DydxClient.getEth, hm, hw]⟩
  · exact ⟨m, by simp [DydxClient.getEth, hm]⟩

/-- C1: a `createOrder` or `createWithdrawal` call whose params omit `signature`,
on a client constructed without a stark key pair, fails synchronously with the
source's error message. The `Except.error` result carries no dispatch outcome,
so the HTTP dispatcher is never invoked and the request is never submitted
unsigned. -/
theorem unsigned_action_without_stark_key_fails (c : PrivateClient)
    (starkSignO : OrderToSign → KeyPair → String)
    (starkSignW : WithdrawalToSign → KeyPair → String)
    (po : OrderParams) (pw : WithdrawalParams) (pid r : String)
    (hstark : c.starkKeyPair = none) (hso : po.signature = none)
    (hsw : pw.signature = none) :
    c.createOrder starkSignO po pid r =
      Except.error "Order is not signed and client was not initialized with starkPrivateKey" ∧
    c.createWithdrawal starkSignW pw pid r =
      Except.error "Withdrawal is not signed and client was not initialized with starkPrivateKey" := by
  constructor
  · simp [PrivateClient.createOrder, providedSignature, hso, hstark]
  · simp [PrivateClient.createWithdrawal, providedSignature, hsw, hstark]

/-- Witness for C1 at a concrete stark-less client and concrete parameters. -/
theorem unsigned_action_without_stark_key_fails_witness :
    PrivateClient.createOrder sampleClientNoStark (fun _ _ => "osig")
        (sampleOrderParams none none) "12" "0.5" =
      Except.error "Order is not signed and client was not initialized with starkPrivateKey" ∧
    PrivateClient.createWithdrawal sampleClientNoStark (fun _ _ => "wsig")
        (sampleWithdrawalParams none none) "12" "0.5" =
      Except.error "Withdrawal is not signed and client was not initialized with starkPrivateKey" :=
  unsigned_action_without_stark_key_fails sampleClientNoStark _ _ _ _ _ _ rfl rfl rfl

/-- C2 counterexample: at a concrete `createWithdrawal` call with no caller
signature and a configured stark key pair, the value handed to the signing
primitive carries a `debitAmount` field (a copy of the caller's `amount`) which
is neither a caller field nor one of `clientId`, `positionId`, `starkKey`, nor
the `expiresAt` expiration mapping; so the claim's "no other field is added or
altered" is false for withdrawals. -/
theorem signable_withdrawal_has_extra_debit_amount :
    PrivateClient.createWithdrawal sampleClientWithStark (fun _ _ => "wsig")
        (sampleWithdrawalParams none none) "12" "0.5" =
      Except.ok
        { signedValue := some
            { amount := "100", asset := "USDC", expiration := "2022-01-01T00:00:00.000Z",
              clientId := "5", starkKey := "spub", debitAmount := "100",
              expiresAt := "2022-01-01T00:00:00.000Z", positionId := "12" }
          endpoint := "withdrawals"
          withdrawal :=
            { amount := "100", asset := "USDC", expiration := "2022-01-01T00:00:00.000Z",
              clientId := "5", signature := "wsig" } } ∧
    "debitAmount" ∈ WithdrawalToSign.keysList ∧
    "debitAmount" ∉ claimedSignableKeys withdrawalCallerKeys := by
  refine ⟨rfl, by decide, by decide⟩

/-- C2 (amended): with no caller signature and a configured stark key pair, the
value handed to the external signing primitive holds exactly the caller's fields
plus the injected `clientId`, `positionId` and stark public key, with `expiresAt`
taken from the caller's `expiration` — and, for withdrawals only, one further
injected field `debitAmount`, a copy of the caller's `amount`. The two `Perm`
conjuncts state the exact field inventories. -/
theorem signable_value_exact_fields (c : PrivateClient)
    (starkSignO : OrderToSign → KeyPair → String)
    (starkSignW : WithdrawalToSign → KeyPair → String)
    (po : OrderParams) (pw : WithdrawalParams) (pid r : String) (kp : KeyPair)
    (hkp : c.starkKeyPair = some kp) (hso : po.signature = none)
    (hsw : pw.signature = none) :
    (∃ out, c.createOrder starkSignO po pid r = Except.ok out ∧
      out.signedValue = some
        { market := po.market, side := po.side, type := po.type, size := po.size,
          price := po.price, expiration := po.expiration,
          clientId := resolveClientId po.clientId r, positionId := pid,
          starkKey := kp.publicKey, expiresAt := po.expiration }) ∧
    (∃ out, c.createWithdrawal starkSignW pw pid r = Except.ok out ∧
      out.signedValue = some
        { amount := pw.amount, asset := pw.asset, expiration := pw.expiration,
          clientId := resolveClientId pw.clientId r, starkKey := kp.publicKey,
          debitAmount := pw.amount, expiresAt := pw.expiration, positionId := pid }) ∧
    List.Perm OrderToSign.keysList (claimedSignableKeys orderCallerKeys) ∧
    List.Perm WithdrawalToSign.keysList
      (claimedSignableKeys withdrawalCallerKeys ++ ["debitAmount"]) := by
  refine ⟨?_, ?_, by decide, by decide⟩
  · have h : c.createOrder starkSignO po pid r = Except.ok
        { signedValue := some
            { market := po.market, side := po.side, type := po.type, size := po.size,
              price := po.price, expiration := po.expiration,
              clientId := resolveClientId po.clientId r, positionId := pid,
              starkKey := kp.publicKey, expiresAt := po.expiration }
          endpoint := "orders"
          order :=
            { market := po.market, side := po.side, type := po.type, size := po.size,
              price := po.price, expiration := po.expiration,
              clientId := resolveClientId po.clientId r,
              signature := starkSignO
                { market := po.market, side := po.side, type := po.type, size := po.size,
                  price := po.price, expiration := po.expiration,
                  clientId := resolveClientId po.clientId r, positionId := pid,
                  starkKey := kp.publicKey, expiresAt := po.expiration } kp } } := by
      simp [PrivateClient.createOrder, providedSignature, hso, hkp]
    exact ⟨_, h, rfl⟩
  · have h : c.createWithdrawal starkSignW pw pid r = Except.ok
        { signedValue := some
            { amount := pw.amount, asset := pw.asset, expiration := pw.expiration,
              clientId := resolveClientId pw.clientId r, starkKey := kp.publicKey,
              debitAmount := pw.amount, expiresAt := pw.expiration, positionId := pid }
          endpoint := "withdrawals"
          withdrawal :=
            { amount := pw.amount, asset := pw.asset, expiration := pw.expiration,
              clientId := resolveClientId pw.clientId r,
              signature := starkSignW
                { amount := pw.amount, asset := pw.asset, expiration := pw.expiration,
                  clientId := resolveClientId pw.clientId r, starkKey := kp.publicKey,
                  debitAmount := pw.amount, expiresAt := pw.expiration,
                  positionId := pid } kp } } := by
      simp [PrivateClient.createWithdrawal, providedSignature, hsw, hkp]
    exact ⟨_, h, rfl⟩

/-- Witness for the amended C2 at a concrete client, concrete parameters and a
concrete random draw. -/
theorem signable_value_exact_fields_witness :
    (∃ out, PrivateClient.createOrder sampleClientWithStark (fun _ _ => "osig")
        (sampleOrderParams none none) "12" "0.5" = Except.ok out ∧
      out.signedValue = some
        { market := "BTC-USD", side := "BUY", type := "LIMIT", size := "1",
          price := "100", expiration := "2022-01-01T00:00:00.000Z",
          clientId := resolveClientId none "0.5", positionId := "12",
          starkKey := "spub", expiresAt := "2022-01-01T00:00:00.000Z" }) ∧
    (∃ out, PrivateClient.createWithdrawal sampleClientWithStark (fun _ _ => "wsig")
        (sampleWithdrawalParams none none) "12" "0.5" = Except.ok out ∧
      out.signedValue = some
        { amount := "100", asset := "USDC", expiration := "2022-01-01T00:00:00.000Z",
          clientId := resolveClientId none "0.5", starkKey := "spub",
          debitAmount := "100", expiresAt := "2022-01-01T00:00:00.000Z",
          positionId := "12" }) ∧
    List.Perm OrderToSign.keysList (claimedSignableKeys orderCallerKeys) ∧
    List.Perm WithdrawalToSign.keysList
      (claimedSignableKeys withdrawalCallerKeys ++ ["debitAmount"]) :=
  signable_value_exact_fields sampleClientWithStark _ _
    (sampleOrderParams none none) (sampleWithdrawalParams none none) "12" "0.5"
    sampleStarkKeyPair rfl rfl rfl

/-- C3 counterexample: a client constructed with no credentials at all — in
particular no chain-connectivity provider — still hands back a real `keys`
module, not the "not supported" stub, because the constructor unconditionally
built a Web3 instance from the absent provider. -/
theorem keys_module_without_provider_is_real :
    (DydxClient.create "https://example.com"
        { apiTimeout := none, apiPrivateKey := none, starkPrivateKey := none,
          web3Provider := none }).getKeys.1 =
      ModuleHandle.real { host := "https://example.com", web3 := { provider := none } } ∧
    ModuleHandle.real { host := "https://example.com", web3 := { provider := none } } ≠
      (ModuleHandle.notSupportedStub : ModuleHandle RealKeys) := by
  exact ⟨rfl, fun h => ModuleHandle.noConfusion h⟩

/-- C3 (amended): without an API private key, every access to the `private`
module — after any sequence of getter accesses on the client — returns the stub,
whose every operation fails with a "not supported" error; this is permanent
because the memo field is never filled. The `keys`, `onboarding` and `eth`
getters, however, never return the stub, whatever the construction options: the
constructor unconditionally builds a Web3 instance even when no provider was
supplied, so their credential check always passes and a real module is handed
back. -/
theorem module_gating (host : String) (opts : ClientOptions) (l : List Accessor)
    (hapi : opts.apiPrivateKey = none) :
    ((DydxClient.create host opts).run l).getPrivate.1 = ModuleHandle.notSupportedStub ∧
    (∀ (op : String) (impl : RealPrivate → String → Except String String),
      ModuleHandle.invoke ModuleHandle.notSupportedStub op impl =
        Except.error (op ++ " is not supported")) ∧
    (∃ m, ((DydxClient.create host opts).run l).getKeys.1 = ModuleHandle.real m) ∧
    (∃ m, ((DydxClient.create host opts).run l).getOnboarding.1 = ModuleHandle.real m) ∧
    (∃ m, ((DydxClient.create host opts).run l).getEth.1 = ModuleHandle.real m) := by
  have hc : (DydxClient.create host opts).apiPrivateKey = none := hapi
  have hrun := run_preserves l (DydxClient.create host opts) hc
  have hw : ((DydxClient.create host opts).run l).web3 =
      some { provider := opts.web3Provider } := hrun.2.1
  exact ⟨getPrivate_stub_of_none _ hrun.2.2 hrun.1, fun op impl => rfl,
    getKeys_real_of_web3 _ _ hw, getOnboarding_real_of_web3 _ _ hw,
    getEth_real_of_web3 _ _ hw⟩

/-- Witness for the amended C3 at a concrete host, options and access sequence. -/
theorem module_gating_witness :
    ((DydxClient.create "https://example.com"
        { apiTimeout := none, apiPrivateKey := none, starkPrivateKey := none,
          web3Provider := none }).run
        [Accessor.keys, Accessor.priv, Accessor.eth]).getPrivate.1 =
      ModuleHandle.notSupportedStub ∧
    (∀ (op : String) (impl : RealPrivate → String → Except String String),
      ModuleHandle.invoke ModuleHandle.notSupportedStub op impl =
        Except.error (op ++ " is not supported")) ∧
    (∃ m, ((DydxClient.create "https://example.com"
        { apiTimeout := none, apiPrivateKey := none, starkPrivateKey := none,
          web3Provider := none }).run
        [Accessor.keys, Accessor.priv, Accessor.eth]).getKeys.1 = ModuleHandle.real m) ∧
    (∃ m, ((DydxClient.create "https://example.com"
        { apiTimeout := none, apiPrivateKey := none, starkPrivateKey := none,
          web3Provider := none }).run
        [Accessor.keys, Accessor.priv, Accessor.eth]).getOnboarding.1 = ModuleHandle.real m) ∧
    (∃ m, ((DydxClient.create "https://example.com"
        { apiTimeout := none, apiPrivateKey := none, starkPrivateKey := none,
          web3Provider := none }).run
        [Accessor.keys, Accessor.priv, Accessor.eth]).getEth.1 = ModuleHandle.real m) :=
  module_gating "https://example.com"
    { apiTimeout := none, apiPrivateKey := none, starkPrivateKey := none,
      web3Provider := none }
    [Accessor.keys, Accessor.priv, Accessor.eth] rfl

/-- C4 counterexample: `Math.random()` can return values below the JS
exponential-notation threshold, for instance exactly 1e-7, whose string
representation is `"1e-7"`. The generator then yields
`"1e-7".slice(2).replace(/^0+/, '') = "-7"`, which is used as the `clientId`
(it is truthy), reaches the posted payload, and is not a string of decimal
digits — refuting the claim that every generated identifier is a valid
non-negative integer numeral. (The draw 0, printed `"0"`, similarly yields the
empty string.) -/
theorem generated_client_id_not_numeral_on_exponential_draw :
    PrivateClient.createOrder sampleClientNoStark (fun _ _ => "osig")
        (sampleOrderParams none (some "sig")) "12" "1e-7" =
      Except.ok
        { signedValue := none
          endpoint := "orders"
          order :=
            { market := "BTC-USD", side := "BUY", type := "LIMIT", size := "1",
              price := "100", expiration := "2022-01-01T00:00:00.000Z",
              clientId := "-7", signature := "sig" } } ∧
    ¬ (("-7" : String).toList.all Char.isDigit = true) ∧
    genClientId "0" = "" := by
  exact ⟨rfl, by decide, rfl⟩

/-- C4 (amended): for every call omitting `clientId` whose random draw prints in
the plain form `0.<digits>` — equivalently, whose representation after dropping
the first two characters consists of decimal digits not all zero; this is every
draw except 0 and draws below 1e-6, which print as `"0"` or in exponential
notation — the generated identifier used in the posted payload is a non-empty
string of decimal digits with no leading zero character. -/
theorem generated_client_id_numeral (c : PrivateClient)
    (starkSignO : OrderToSign → KeyPair → String)
    (starkSignW : WithdrawalToSign → KeyPair → String)
    (po : OrderParams) (pw : WithdrawalParams) (pid r : String)
    (hpo : po.clientId = none) (hpw : pw.clientId = none)
    (hdig : (r.toList.drop 2).all Char.isDigit = true)
    (hnz : (r.toList.drop 2).any (· != '0') = true) :
    (∀ out, c.createOrder starkSignO po pid r = Except.ok out →
      out.order.clientId = genClientId r) ∧
    (∀ out, c.createWithdrawal starkSignW pw pid r = Except.ok out →
      out.withdrawal.clientId = genClientId r) ∧
    genClientId r ≠ "" ∧ (genClientId r).toList.all Char.isDigit = true ∧
    (genClientId r).toList.head? ≠ some '0' := by
  have hnum := genClientId_numeral r hdig hnz
  refine ⟨?_, ?_, hnum.1, hnum.2.1, hnum.2.2⟩
  · intro out hout
    simp only [PrivateClient.createOrder, resolveClientId, hpo] at hout
    split at hout
    · cases hout
      rfl
    · split at hout
      · cases hout
      · cases hout
        rfl
  · intro out hout
    simp only [PrivateClient.createWithdrawal, resolveClientId, hpw] at hout
    split at hout
    · cases hout
      rfl
    · split at hout
      · cases hout
      · cases hout
        rfl

/-- Witness for the amended C4 at a concrete draw `"0.00753"`. -/
theorem generated_client_id_numeral_witness :
    (∀ out, PrivateClient.createOrder sampleClientWithStark (fun _ _ => "osig")
        (sampleOrderParams none none) "12" "0.00753" = Except.ok out →
      out.order.clientId = genClientId "0.00753") ∧
    (∀ out, PrivateClient.createWithdrawal sampleClientWithStark (fun _ _ => "wsig")
        (sampleWithdrawalParams none none) "12" "0.00753" = Except.ok out →
      out.withdrawal.clientId = genClientId "0.00753") ∧
    genClientId "0.00753" ≠ "" ∧
    (genClientId "0.00753").toList.all Char.isDigit = true ∧
    (genClientId "0.00753").toList.head? ≠ some '0' :=
  generated_client_id_numeral sampleClientWithStark _ _
    (sampleOrderParams none none) (sampleWithdrawalParams none none) "12" "0.00753"
    rfl rfl (by decide) (by decide)

/-- C5: every successful `createOrder`/`createWithdrawal` hands `this.post` the
fixed endpoint and a payload that is exactly the caller's parameters plus the
finalized `clientId` and `signature`; the posted `clientId` is the value
resolved once before signing and equals the `clientId` inside the signed value
whenever one was produced. -/
theorem posted_payload_matches (c : PrivateClient)
    (starkSignO : OrderToSign → KeyPair → String)
    (starkSignW : WithdrawalToSign → KeyPair → String)
    (po : OrderParams) (pw : WithdrawalParams) (pid r : String) :
    (∀ out, c.createOrder starkSignO po pid r = Except.ok out →
      out.endpoint = "orders" ∧
      out.order =
        { market := po.market, side := po.side, type := po.type, size := po.size,
          price := po.price, expiration := po.expiration,
          clientId := resolveClientId po.clientId r,
          signature := out.order.signature } ∧
      (∀ sv, out.signedValue = some sv → sv.clientId = out.order.clientId)) ∧
    (∀ out, c.createWithdrawal starkSignW pw pid r = Except.ok out →
      out.endpoint = "withdrawals" ∧
      out.withdrawal =
        { amount := pw.amount, asset := pw.asset, expiration := pw.expiration,
          clientId := resolveClientId pw.clientId r,
          signature := out.withdrawal.signature } ∧
      (∀ sv, out.signedValue = some sv → sv.clientId = out.withdrawal.clientId)) := by
  constructor
  · intro out hout
    simp only [PrivateClient.createOrder] at hout
    split at hout
    · cases hout
      exact ⟨rfl, rfl, fun sv hsv => by cases hsv⟩
    · split at hout
      · cases hout
      · cases hout
        exact ⟨rfl, rfl, fun sv hsv => by cases hsv; rfl⟩
  · intro out hout
    simp only [PrivateClient.createWithdrawal] at hout
    split at hout
    · cases hout
      exact ⟨rfl, rfl, fun sv hsv => by cases hsv⟩
    · split at hout
      · cases hout
      · cases hout
        exact ⟨rfl, rfl, fun sv hsv => by cases hsv; rfl⟩

/-- The outcome of the concrete `createOrder` call used by the C5 witness. -/
def samplePostedOrderOutcome : CreateOrderOutcome :=
  { signedValue := none
    endpoint := "orders"
    order :=
      { market := "BTC-USD", side := "BUY", type := "LIMIT", size := "1",
        price := "100", expiration := "2022-01-01T00:00:00.000Z",
        clientId := "7", signature := "sig" } }

/-- Witness for C5: the nested hypothesis is discharged by evaluating the
concrete call to its outcome. -/
theorem posted_payload_matches_witness :
    samplePostedOrderOutcome.endpoint = "orders" ∧
    samplePostedOrderOutcome.order =
      { market := "BTC-USD", side := "BUY", type := "LIMIT", size := "1",
        price := "100", expiration := "2022-01-01T00:00:00.000Z",
        clientId := resolveClientId (some "7") "0.5",
        signature := samplePostedOrderOutcome.order.signature } ∧
    (∀ sv, samplePostedOrderOutcome.signedValue = some sv →
      sv.clientId = samplePostedOrderOutcome.order.clientId) :=
  (posted_payload_matches sampleClientNoStark (fun _ _ => "osig") (fun _ _ => "wsig")
    (sampleOrderParams (some "7") (some "sig")) (sampleWithdrawalParams (some "8") (some "wsig"))
    "12" "0.5").1 samplePostedOrderOutcome rfl

/-- C6: every dispatched request's path is the endpoint prefixed by the fixed
`/v3/` segment, and GET/DELETE hand the dispatcher the query-augmented endpoint,
so the path that gets signed already carries the query string; an empty
parameter mapping yields the bare endpoint and a non-empty one appends the
query string. -/
theorem request_path_versioned {α : Type} (c : PrivateClient)
    (signer : ApiRequestEnvelope → String → String) (stringify : α → String)
    (t : String) (m : RequestMethod) (ep : String) (d : Option α)
    (ps : List (String × String)) (hps : ps ≠ []) :
    (c.request signer stringify t m ep d).url = c.host ++ ("/v3/" ++ ep) ∧
    PrivateClient.get c signer stringify t ep ps =
      c.request signer stringify t RequestMethod.GET (generateQueryPath ep ps) none ∧
    PrivateClient.delete c signer stringify t ep ps =
      c.request signer stringify t RequestMethod.DELETE (generateQueryPath ep ps) none ∧
    (PrivateClient.get c signer stringify t ep ps).headers.head? =
      some ("DYDX-SIGNATURE",
        signer (signEnvelope c stringify ("/v3/" ++ generateQueryPath ep ps)
          RequestMethod.GET t none) c.apiKeyPair.privateKey) ∧
    generateQueryPath ep [] = ep ∧
    generateQueryPath ep ps =
      ep ++ "?" ++ String.intercalate "&" (ps.map (fun kv => kv.1 ++ "=" ++ kv.2)) := by
  refine ⟨rfl, rfl, rfl, rfl, by simp [generateQueryPath], ?_⟩
  cases ps with
  | nil => exact absurd rfl hps
  | cons x tl => simp [generateQueryPath]

/-- Witness for C6 at a concrete client, endpoint and non-empty parameter set. -/
theorem request_path_versioned_witness :
    (PrivateClient.request sampleClientNoStark (fun e k => e.requestPath ++ k)
        (fun s : String => s) "2022-01-01T00:00:00.000Z" RequestMethod.POST "orders"
        (some "body")).url = "https://example.com" ++ ("/v3/" ++ "orders") ∧
    PrivateClient.get sampleClientNoStark (fun e k => e.requestPath ++ k)
        (fun s : String => s) "2022-01-01T00:00:00.000Z" "orders"
        [("market", "BTC-USD")] =
      PrivateClient.request sampleClientNoStark (fun e k => e.requestPath ++ k)
        (fun s : String => s) "2022-01-01T00:00:00.000Z" RequestMethod.GET
        (generateQueryPath "orders" [("market", "BTC-USD")]) none ∧
    PrivateClient.delete sampleClientNoStark (fun e k => e.requestPath ++ k)
        (fun s : String => s) "2022-01-01T00:00:00.000Z" "orders"
        [("market", "BTC-USD")] =
      PrivateClient.request sampleClientNoStark (fun e k => e.requestPath ++ k)
        (fun s : String => s) "2022-01-01T00:00:00.000Z" RequestMethod.DELETE
        (generateQueryPath "orders" [("market", "BTC-USD")]) none ∧
    (PrivateClient.get sampleClientNoStark (fun e k => e.requestPath ++ k)
        (fun s : String => s) "2022-01-01T00:00:00.000Z" "orders"
        [("market", "BTC-USD")]).headers.head? =
      some ("DYDX-SIGNATURE",
        (fun (e : ApiRequestEnvelope) (k : String) => e.requestPath ++ k)
          (signEnvelope sampleClientNoStark (fun s : String => s)
            ("/v3/" ++ generateQueryPath "orders" [("market", "BTC-USD")])
            RequestMethod.GET "2022-01-01T00:00:00.000Z" none)
          sampleClientNoStark.apiKeyPair.privateKey) ∧
    generateQueryPath "orders" ([] : List (String × String)) = "orders" ∧
    generateQueryPath "orders" [("market", "BTC-USD")] =
      "orders" ++ "?" ++ String.intercalate "&"
        ([("market", "BTC-USD")].map (fun kv => kv.1 ++ "=" ++ kv.2)) :=
  request_path_versioned sampleClientNoStark (fun e k => e.requestPath ++ k)
    (fun s : String => s) "2022-01-01T00:00:00.000Z" RequestMethod.POST "orders"
    (some "body") [("market", "BTC-USD")] (by decide)

/-- C7: every dispatched request carries exactly the three authentication
headers: `DYDX-SIGNATURE` holding the computed request signature over the
versioned path, `DYDX-API-KEY` holding the API key pair's public key, and
`DYDX-TIMESTAMP` holding the same timestamp that went into the signed envelope
as its expiration. -/
theorem request_attaches_three_auth_headers {α : Type} (c : PrivateClient)
    (signer : ApiRequestEnvelope → String → String) (stringify : α → String)
    (t : String) (m : RequestMethod) (ep : String) (d : Option α) :
    (c.request signer stringify t m ep d).headers =
      [("DYDX-SIGNATURE",
        signer (signEnvelope c stringify ("/v3/" ++ ep) m t d) c.apiKeyPair.privateKey),
       ("DYDX-API-KEY", c.apiKeyPair.publicKey),
       ("DYDX-TIMESTAMP", t)] ∧
    (signEnvelope c stringify ("/v3/" ++ ep) m t d).expiresAt = t ∧
    (c.request signer stringify t m ep d).headers.length = 3 :=
  ⟨rfl, rfl, rfl⟩

/-- C8: the request signer is deterministic — two invocations with the same
requestPath, method, timestamp and data, on clients holding the same API key
pair, produce the same signature (the embedding routes everything through the
envelope and the fixed external signer) — and the envelope's body is the
serialization of `data` when present and the empty string otherwise. -/
theorem sign_deterministic {α : Type} (c c' : PrivateClient)
    (signer : ApiRequestEnvelope → String → String) (stringify : α → String)
    (p : String) (m : RequestMethod) (t : String) (d d' : Option α)
    (hkey : c.apiKeyPair = c'.apiKeyPair) (hd : d = d') :
    c.sign signer stringify p m t d = c'.sign signer stringify p m t d' ∧
    (signEnvelope c stringify p m t (none : Option α)).body = "" ∧
    (∀ x : α, (signEnvelope c stringify p m t (some x)).body = stringify x) := by
  subst hd
  refine ⟨?_, rfl, fun x => rfl⟩
  simp [PrivateClient.sign, signEnvelope, hkey]

/-- Witness for C8: two clients differing in host and stark key but sharing the
API key pair sign a concrete request identically. -/
theorem sign_deterministic_witness :
    PrivateClient.sign
        { host := "https://a.example.com", apiKeyPair := sampleApiKeyPair,
          starkKeyPair := none }
        (fun e k => e.requestPath ++ e.body ++ k) (fun s : String => s)
        "/v3/users" RequestMethod.GET "2022-01-01T00:00:00.000Z" (some "body") =
      PrivateClient.sign
        { host := "https://b.example.com", apiKeyPair := sampleApiKeyPair,
          starkKeyPair := some sampleStarkKeyPair }
        (fun e k => e.requestPath ++ e.body ++ k) (fun s : String => s)
        "/v3/users" RequestMethod.GET "2022-01-01T00:00:00.000Z" (some "body") ∧
    (signEnvelope
        { host := "https://a.example.com", apiKeyPair := sampleApiKeyPair,
          starkKeyPair := none }
        (fun s : String => s) "/v3/users" RequestMethod.GET "2022-01-01T00:00:00.000Z"
        (none : Option String)).body = "" ∧
    (∀ x : String, (signEnvelope
        { host := "https://a.example.com", apiKeyPair := sampleApiKeyPair,
          starkKeyPair := none }
        (fun s : String => s) "/v3/users" RequestMethod.GET "2022-01-01T00:00:00.000Z"
        (some x)).body = x) :=
  sign_deterministic
    { host := "https://a.example.com", apiKeyPair := sampleApiKeyPair,
      starkKeyPair := none }
    { host := "https://b.example.com", apiKeyPair := sampleApiKeyPair,
      starkKeyPair := some sampleStarkKeyPair }
    (fun e k => e.requestPath ++ e.body ++ k) (fun s : String => s)
    "/v3/users" RequestMethod.GET "2022-01-01T00:00:00.000Z" (some "body") (some "body")
    rfl rfl

/-- C9 counterexample: an explicitly supplied empty-string signature is falsy
under the `if (!signature)` test, so the claim fails on it: with a stark key
pair configured the external signing primitive IS invoked (a signed value is
produced) and the posted signature is the computed one, not the supplied one;
and without a stark key pair the call fails even though a signature was
explicitly included. -/
theorem empty_signature_triggers_signing :
    PrivateClient.createOrder sampleClientWithStark (fun _ _ => "computed")
        (sampleOrderParams (some "7") (some "")) "12" "0.5" =
      Except.ok
        { signedValue := some
            { market := "BTC-USD", side := "BUY", type := "LIMIT", size := "1",
              price := "100", expiration := "2022-01-01T00:00:00.000Z",
              clientId := "7", positionId := "12", starkKey := "spub",
              expiresAt := "2022-01-01T00:00:00.000Z" }
          endpoint := "orders"
          order :=
            { market := "BTC-USD", side := "BUY", type := "LIMIT", size := "1",
              price := "100", expiration := "2022-01-01T00:00:00.000Z",
              clientId := "7", signature := "computed" } } ∧
    PrivateClient.createOrder sampleClientNoStark (fun _ _ => "computed")
        (sampleOrderParams (some "7") (some "")) "12" "0.5" =
      Except.error "Order is not signed and client was not initialized with starkPrivateKey" :=
  ⟨rfl, rfl⟩

/-- C9 (amended): for every call whose params include a NON-EMPTY explicit
`signature`, the external signing primitive is never invoked (no signed value is
produced), no stark key pair is required (the client's stark key pair is
arbitrary, including absent), and the supplied signature string appears
unchanged in the posted payload. -/
theorem provided_signature_respected (c : PrivateClient)
    (starkSignO : OrderToSign → KeyPair → String)
    (starkSignW : WithdrawalToSign → KeyPair → String)
    (po : OrderParams) (pw : WithdrawalParams) (pid r s sw : String)
    (hso : po.signature = some s) (hs : s ≠ "")
    (hsw : pw.signature = some sw) (hsw' : sw ≠ "") :
    c.createOrder starkSignO po pid r =
      Except.ok
        { signedValue := none
          endpoint := "orders"
          order :=
            { market := po.market, side := po.side, type := po.type, size := po.size,
              price := po.price, expiration := po.expiration,
              clientId := resolveClientId po.clientId r, signature := s } } ∧
    c.createWithdrawal starkSignW pw pid r =
      Except.ok
        { signedValue := none
          endpoint := "withdrawals"
          withdrawal :=
            { amount := pw.amount, asset := pw.asset, expiration := pw.expiration,
              clientId := resolveClientId pw.clientId r, signature := sw } } := by
  constructor
  · simp [PrivateClient.createOrder, providedSignature, hso, hs]
  · simp [PrivateClient.createWithdrawal, providedSignature, hsw, hsw']

/-- Witness for the amended C9 on a stark-less client with non-empty supplied
signatures. -/
theorem provided_signature_respected_witness :
    PrivateClient.createOrder sampleClientNoStark (fun _ _ => "computed")
        (sampleOrderParams (some "7") (some "sig")) "12" "0.5" =
      Except.ok
        { signedValue := none
          endpoint := "orders"
          order :=
            { market := "BTC-USD", side := "BUY", type := "LIMIT", size := "1",
              price := "100", expiration := "2022-01-01T00:00:00.000Z",
              clientId := resolveClientId (some "7") "0.5", signature := "sig" } } ∧
    PrivateClient.createWithdrawal sampleClientNoStark (fun _ _ => "computed")
        (sampleWithdrawalParams (some "8") (some "wsig")) "12" "0.5" =
      Except.ok
        { signedValue := none
          endpoint := "withdrawals"
          withdrawal :=
            { amount := "100", asset := "USDC", expiration := "2022-01-01T00:00:00.000Z",
              clientId := resolveClientId (some "8") "0.5", signature := "wsig" } } :=
  provided_signature_respected sampleClientNoStark _ _
    (sampleOrderParams (some "7") (some "sig")) (sampleWithdrawalParams (some "8") (some "wsig"))
    "12" "0.5" "sig" "wsig" rfl (by decide) rfl (by decide)

/-- C10 counterexample: an explicitly supplied empty-string `clientId` is falsy
under `params.clientId || ...`, so it is not used verbatim: the identifier is
regenerated from the random draw (here `"0.5"` yielding `"5"`), refuting the
claim that every caller-supplied `clientId` reaches the payload untransformed. -/
theorem empty_client_id_regenerated :
    PrivateClient.createOrder sampleClientNoStark (fun _ _ => "osig")
        (sampleOrderParams (some "") (some "sig")) "12" "0.5" =
      Except.ok
        { signedValue := none
          endpoint := "orders"
          order :=
            { market := "BTC-USD", side := "BUY", type := "LIMIT", size := "1",
              price := "100", expiration := "2022-01-01T00:00:00.000Z",
              clientId := "5", signature := "sig" } } ∧
    ("5" : String) ≠ "" :=
  ⟨rfl, by decide⟩

/-- C10 (amended): for every call whose params include a NON-EMPTY explicit
`clientId`, that identifier is used verbatim both in the signed value (whenever
one is produced) and in the posted payload; no stripping, regeneration or other
transformation is applied. -/
theorem caller_client_id_verbatim (c : PrivateClient)
    (starkSignO : OrderToSign → KeyPair → String)
    (starkSignW : WithdrawalToSign → KeyPair → String)
    (po : OrderParams) (pw : WithdrawalParams) (pid r cid cidw : String)
    (ho : po.clientId = some cid) (hc : cid ≠ "")
    (hw : pw.clientId = some cidw) (hcw : cidw ≠ "") :
    (∀ out, c.createOrder starkSignO po pid r = Except.ok out →
      out.order.clientId = cid ∧ ∀ sv, out.signedValue = some sv → sv.clientId = cid) ∧
    (∀ out, c.createWithdrawal starkSignW pw pid r = Except.ok out →
      out.withdrawal.clientId = cidw ∧
      ∀ sv, out.signedValue = some sv → sv.clientId = cidw) := by
  have hro : resolveClientId po.clientId r = cid := by simp [resolveClientId, ho, hc]
  have hrw : resolveClientId pw.clientId r = cidw := by simp [resolveClientId, hw, hcw]
  constructor
  · intro out hout
    simp only [PrivateClient.createOrder, hro] at hout
    split at hout
    · cases hout
      exact ⟨rfl, fun sv hsv => by cases hsv⟩
    · split at hout
      · cases hout
      · cases hout
        exact ⟨rfl, fun sv hsv => by cases hsv; rfl⟩
  · intro out hout
    simp only [PrivateClient.createWithdrawal, hrw] at hout
    split at hout
    · cases hout
      exact ⟨rfl, fun sv hsv => by cases hsv⟩
    · split at hout
      · cases hout
      · cases hout
        exact ⟨rfl, fun sv hsv => by cases hsv; rfl⟩

/-- Witness for the amended C10 at concrete non-empty caller identifiers. -/
theorem caller_client_id_verbatim_witness :
    (∀ out, PrivateClient.createOrder sampleClientWithStark (fun _ _ => "osig")
        (sampleOrderParams (some "7") none) "12" "0.5" = Except.ok out →
      out.order.clientId = "7" ∧ ∀ sv, out.signedValue = some sv → sv.clientId = "7") ∧
    (∀ out, PrivateClient.createWithdrawal sampleClientWithStark (fun _ _ => "wsig")
        (sampleWithdrawalParams (some "8") none) "12" "0.5" = Except.ok out →
      out.withdrawal.clientId = "8" ∧
      ∀ sv, out.signedValue = some sv → sv.clientId = "8") :=
  caller_client_id_verbatim sampleClientWithStark _ _
    (sampleOrderParams (some "7") none) (sampleWithdrawalParams (some "8") none)
    "12" "0.5" "7" "8" rfl (by decide) rfl (by decide)

end V3Client
